import Mathlib

set_option maxRecDepth 100000

/-!
Verification development for the hypothesis-generator application (`src/app.py`).

The file shallowly embeds the agent-orchestration core of the program:

* the data model of conversation messages and structured tool-call payloads
  (`Reflection`, `AnswerQuestionArgs`, `ToolCall`, `Message`);
* `ResponderWithRetries.respond` (the bounded retry-on-validation-failure
  wrapper), including a heap-instrumented variant that makes the Python
  list-object semantics of `state = state + [...]` explicit;
* `HypothesisGenerator.event_loop` / `_get_num_iterations` (the Revise-stage
  transition function of the cycle graph);
* `run_queries` (the tool-execution stage);
* the outer loop of `HypothesisGenerator.generate_hypotheses` (seed-message
  construction, known-concept accumulation, row production, fault
  propagation), with the external collaborators (graph run, vector-store
  similarity search, guardrails chain, auxiliary short model call) supplied
  as an explicit environment of fallible oracles.

External collaborators (OpenAI endpoints, Chroma retriever, guardrails) are
modelled as function parameters returning `Except Fault _`; everything the
repository itself computes is translated directly from the source.
-/

/-- Message roles, mirroring langchain's `message.type` strings
(`"human"`, `"ai"`, `"tool"`, `"system"`). -/
inductive Role where
  | human
  | ai
  | tool
  | system
deriving DecidableEq, Repr, BEq

/-- The reflection payload of a structured tool call: the `Reflection`
pydantic model of `src/app.py` (fields in source order). -/
structure Reflection where
  missing : String
  superfluous : String
  notnovel : String
  shortname : String
  noveltyscore : String
  references_field : String
  flag : String
deriving DecidableEq, Repr

/-- The arguments of an `AnswerQuestion` / `ReviseAnswer` tool call:
`answer`, `reflection` and `search_queries` (the `ReviseAnswer` extra
`references` list is carried too, defaulted empty for drafts). -/
structure AnswerQuestionArgs where
  answer : String
  reflection : Reflection
  search_queries : List String
  references : List String := []
deriving DecidableEq, Repr

/-- One model-emitted tool invocation: a correlation `id` and the structured
`args` payload (the only access paths the program uses are
`tool_calls[0]["id"]` and `tool_calls[0]["args"][...]`). -/
structure ToolCall where
  id : String
  args : AnswerQuestionArgs
deriving DecidableEq, Repr

/-- A conversation message: role (`message.type` in the source), text
content, the list of tool invocations, and — for tool-role messages — the
`tool_call_id` correlating it to the invocation it answers. -/
structure Message where
  type : Role
  content : String
  tool_calls : List ToolCall := []
  tool_call_id : Option String := none
deriving DecidableEq, Repr

/-- A validation failure raised by the pydantic tools parser; `err_repr` is
what Python's `repr(e)` interpolates into the corrective message. -/
structure ValidationError where
  err_repr : String
deriving DecidableEq, Repr

/-- The corrective `ToolMessage` built in the `except ValidationError`
branch of `ResponderWithRetries.respond` (`src/app.py` lines 135-140):
content is `repr(e)` + fixed text + the validator's schema JSON + fixed
text, correlated by the failing response's first tool-call id. -/
def corrective_tool_message (e : ValidationError) (schema_json : String)
    (tcid : String) : Message :=
  { type := Role.tool
    content := e.err_repr ++ "\n\nPay close attention to the function schema.\n\n"
      ++ schema_json ++ " Respond by fixing all validation errors."
    tool_calls := []
    tool_call_id := some tcid }

/-- Observable outcome of a call to `ResponderWithRetries.respond`: either a
returned message or an uncaught `IndexError` (from `response.tool_calls[0]`
on an invalid response with no tool calls), in both cases together with the
number of model invocations performed. -/
inductive PyOutcome where
  | ret (response : Message) (calls : Nat)
  | indexError (calls : Nat)
deriving DecidableEq, Repr

/-- The retry loop of `ResponderWithRetries.respond` (`src/app.py` lines
127-142), parametrised by the model (`runnable.invoke`, a function of the
attempt index and current state) and the validator (`none` = validation
succeeded, `some e` = `ValidationError` raised).  `attempt` is the current
index of the `for attempt in range(3)` loop and `remaining` the number of
loop iterations still to run after this one; on validation failure the
corrective pair is appended and the loop continues, and after the last
failing iteration the last response is returned as-is. -/
def respondGo (run : Nat → List Message → Message)
    (val : Message → Option ValidationError) (schema_json : String) :
    Nat → Nat → List Message → PyOutcome
  | attempt, remaining, state =>
    let response := run attempt state
    match val response with
    | none => PyOutcome.ret response (attempt + 1)
    | some e =>
      match response.tool_calls with
      | [] => PyOutcome.indexError (attempt + 1)
      | tc :: _ =>
        match remaining with
        | 0 => PyOutcome.ret response (attempt + 1)
        | rr + 1 =>
          respondGo run val schema_json (attempt + 1) rr
            (state ++ [response, corrective_tool_message e schema_json tc.id])

/-- `ResponderWithRetries.respond` itself: the loop entered at attempt 0
with two further iterations available (`range(3)`). -/
def respond (run : Nat → List Message → Message)
    (val : Message → Option ValidationError) (schema_json : String)
    (state : List Message) : PyOutcome :=
  respondGo run val schema_json 0 2 state

/-- The conversation state `respond` holds at the start of attempt `j`,
assuming every earlier attempt failed validation with at least one tool
call present (otherwise the trajectory is cut short and the value at `j` is
frozen); derived from the failure branch of the loop. -/
def respStateAt (run : Nat → List Message → Message)
    (val : Message → Option ValidationError) (schema_json : String)
    (state : List Message) : Nat → List Message
  | 0 => state
  | j + 1 =>
    let s := respStateAt run val schema_json state j
    let response := run j s
    match val response, response.tool_calls with
    | some e, tc :: _ => s ++ [response, corrective_tool_message e schema_json tc.id]
    | _, _ => s

/-- A heap of Python list objects (each cell one `list` of messages);
references are indices into the heap. -/
abbrev Heap : Type := List (List Message)

/-- Heap lookup (a dangling reference reads as the empty list; all theorems
restrict to valid references). -/
def Heap.read (h : Heap) (r : Nat) : List Message :=
  List.getD h r []

/-- Heap-instrumented version of the `respond` retry loop, making Python's
object semantics explicit: the parameter `r` is a reference to the caller's
list object, and `state = state + [...]` allocates a fresh list object at
the end of the heap and rebinds the local variable to it — it never writes
to an existing cell. -/
def respondHGo (run : Nat → List Message → Message)
    (val : Message → Option ValidationError) (schema_json : String) :
    Nat → Nat → Heap → Nat → PyOutcome × Heap
  | attempt, remaining, heap, r =>
    let state := heap.read r
    let response := run attempt state
    match val response with
    | none => (PyOutcome.ret response (attempt + 1), heap)
    | some e =>
      match response.tool_calls with
      | [] => (PyOutcome.indexError (attempt + 1), heap)
      | tc :: _ =>
        let fresh := state ++ [response, corrective_tool_message e schema_json tc.id]
        match remaining with
        | 0 => (PyOutcome.ret response (attempt + 1), heap ++ [fresh])
        | rr + 1 =>
          respondHGo run val schema_json (attempt + 1) rr (heap ++ [fresh]) heap.length

/-- `ResponderWithRetries.respond` on the heap model: called with a
reference `r` to the caller's history list. -/
def respondH (run : Nat → List Message → Message)
    (val : Message → Option ValidationError) (schema_json : String)
    (heap : Heap) (r : Nat) : PyOutcome × Heap :=
  respondHGo run val schema_json 0 2 heap r

/-- The two possible values of `HypothesisGenerator.event_loop`:
`"execute_tools"` or langgraph's `END`. -/
inductive GraphNext where
  | execute_tools
  | terminal
deriving DecidableEq, Repr

/-- `HypothesisGenerator._get_num_iterations` (`src/app.py` lines 317-322):
walk the state from the end backward, stopping at the first message whose
type is not `tool` or `ai`, counting the messages passed. -/
def get_num_iterations_rev : List Message → Nat
  | [] => 0
  | m :: rest =>
    if m.type = Role.tool ∨ m.type = Role.ai then get_num_iterations_rev rest + 1
    else 0

/-- `_get_num_iterations` on the un-reversed state (the source iterates
`state[::-1]`). -/
def get_num_iterations (state : List Message) : Nat :=
  get_num_iterations_rev state.reverse

/-- `HypothesisGenerator.event_loop` (`src/app.py` lines 302-305): terminate
when the iteration count exceeds `agent_iterations`, else loop back to
`execute_tools`. -/
def event_loop (agent_iterations : Nat) (state : List Message) : GraphNext :=
  if get_num_iterations state > agent_iterations then GraphNext.terminal
  else GraphNext.execute_tools

/-- The quantity the specification describes: the length of the run of
consecutive trailing messages whose role is `ai` or `tool`, scanning from
the end of history backward and stopping at the first other role.  Stated
with `takeWhile` on the reversed history; compared against the source's
`get_num_iterations`. -/
def trailing_ai_tool_run (state : List Message) : Nat :=
  (state.reverse.takeWhile (fun m => m.type == Role.ai || m.type == Role.tool)).length

/-- A fault raised by an external collaborator (model endpoint or
retriever), or an uncaught `IndexError` from `tool_calls[0]` on a final
message with no tool calls. -/
inductive Fault where
  | endpoint (msg : String)
  | retriever (msg : String)
  | indexError
deriving DecidableEq, Repr

/-- `run_queries` (`src/app.py` lines 169-183): run each search query in
list order through `self.retrieval_chain({"chat_history": "", "question":
query})['answer']`, appending each answer; a retriever fault propagates
uncaught. -/
def run_queries (retrieval_chain : String → String → Except Fault String) :
    List String → Except Fault (List String)
  | [] => Except.ok []
  | query :: rest =>
    match retrieval_chain "" query with
    | Except.error f => Except.error f
    | Except.ok response =>
      match run_queries retrieval_chain rest with
      | Except.error f => Except.error f
      | Except.ok results => Except.ok (response :: results)

/-- The generic prompt of `src/app.py` lines 244-247 (`[("system", "You are
world class technical documentation writer."), ("user", "{input}")]`),
rendered at a concrete input: the message list the wrapped model receives. -/
def prompt_messages (input : String) : List (String × String) :=
  [("system", "You are world class technical documentation writer."),
   ("user", input)]

/-- The hypothesis-specific prompt built at `src/app.py` lines 261-264
(`prompt_short`): its system message embeds the hypothesis short name.
It is constructed by the source but never invoked (see line 267, where
`chain_short` is re-assigned using the generic `prompt` instead). -/
def prompt_short_messages (shortname_hyp input : String) : List (String × String) :=
  [("system", "You are world class technical documentation writer. Given a list of publications, decide how the following hypothesis relates to it: "
      ++ shortname_hyp),
   ("user", "The list of publications: " ++ input)]

/-- The seed `HumanMessage` content of each outer iteration (`src/app.py`
lines 238-239), with the running known-concepts string interpolated at the
end. -/
def seedContent (notnovelhyp : String) : String :=
  "Come up with new hypotheses in the context. ALWAYS make sure that your hypothesis is novel compared to the following known hypotheses (don't include the known hypotheses and don't generate anything related to them conceptually): "
    ++ notnovelhyp

/-- One row of the produced table, as an association list so that the column
labels and their order are part of the value (a pandas DataFrame row). -/
abbrev HypRow : Type := List (String × String)

/-- The row built at `src/app.py` lines 274-285, from the final message's
first tool-call args plus the two derived annotations (`Biohazard` from the
guardrails chain, `Relations to literature` from `chain_short`). -/
def mkRow (args : AnswerQuestionArgs) (safety relation : String) : HypRow :=
  [("Hypotheses short description", args.reflection.shortname),
   ("Generated Hypotheses", args.answer),
   ("Novelty", args.reflection.noveltyscore),
   ("What is not novel", args.reflection.notnovel),
   ("Missing", args.reflection.missing),
   ("Superfluous", args.reflection.superfluous),
   ("Flag", args.reflection.flag),
   ("References", args.reflection.references_field),
   ("Biohazard", safety),
   ("Relations to literature", relation)]

/-- The declared column labels of the produced table, in source order. -/
def colNames : List String :=
  ["Hypotheses short description", "Generated Hypotheses", "Novelty",
   "What is not novel", "Missing", "Superfluous", "Flag", "References",
   "Biohazard", "Relations to literature"]

/-- The external collaborators of `generate_hypotheses`, as fallible
oracles:
* `first_respond` — the discarded `first_responder.respond(...)` call of
  line 232;
* `graph_final` — the last message of the compiled graph's stream for a
  given seed content (`step[-1]` after the `for i, step in enumerate`
  loop), covering draft, tool execution and revision;
* `similarity_search` — `str(self.db.similarity_search(...))`;
* `guardrails_invoke` — `chain_with_guardrails.invoke(...)` (the content
  policy check);
* `llm_short_invoke` — the `llm_short` model behind `chain_short`, applied
  to the rendered prompt messages (the `StrOutputParser` passes its string
  through). -/
structure Env where
  first_respond : Except Fault Message
  graph_final : String → Except Fault Message
  similarity_search : String → Except Fault String
  guardrails_invoke : String → Except Fault String
  llm_short_invoke : List (String × String) → Except Fault String

/-- One outer iteration of the `for hypothesis_cycle in range(self.iterations)`
loop of `generate_hypotheses` (`src/app.py` lines 237-288), given the
current accumulator value: run the graph on the seed, extract the first
tool call of the final message (`IndexError` when absent), retrieve
passages with the short name as key, compute the two annotations (note
line 267: the literature-relation call goes through the generic `prompt`,
so its input is `prompt_messages listofpapers`), and produce the row
together with the short name appended to the accumulator afterwards. -/
def runIteration (env : Env) (notnovelhyp : String) :
    Except Fault (HypRow × String) :=
  match env.graph_final (seedContent notnovelhyp) with
  | Except.error f => Except.error f
  | Except.ok final =>
    match final.tool_calls with
    | [] => Except.error Fault.indexError
    | tc :: _ =>
      let shortname_hyp := tc.args.reflection.shortname
      match env.similarity_search shortname_hyp with
      | Except.error f => Except.error f
      | Except.ok listofpapers =>
        match env.guardrails_invoke
            ("Does the following contain any restricted topics?: " ++ tc.args.answer) with
        | Except.error f => Except.error f
        | Except.ok safety =>
          match env.llm_short_invoke (prompt_messages listofpapers) with
          | Except.error f => Except.error f
          | Except.ok relation =>
            Except.ok (mkRow tc.args safety relation, shortname_hyp)

/-- The outer loop of `generate_hypotheses`: repeatedly run one iteration,
appending the produced row to the table and the short name to the
accumulator; an uncaught fault ends the loop at once, leaving the table as
accumulated so far (the session-state DataFrame survives the exception). -/
def generate_loop (env : Env) :
    Nat → String → List HypRow → List HypRow × String × Option Fault
  | 0, notnovelhyp, table => (table, notnovelhyp, none)
  | n + 1, notnovelhyp, table =>
    match runIteration env notnovelhyp with
    | Except.error f => (table, notnovelhyp, some f)
    | Except.ok (row, shortname_hyp) =>
      generate_loop env n (notnovelhyp ++ shortname_hyp) (table ++ [row])

/-- `HypothesisGenerator.generate_hypotheses` (`src/app.py` lines 219-290):
the initial discarded respond call, then the outer loop started with an
empty table and empty accumulator; returns the table rows and the fault (if
any) that ended the run. -/
def generate_hypotheses (env : Env) (iterations : Nat) :
    List HypRow × Option Fault :=
  match env.first_respond with
  | Except.error f => ([], some f)
  | Except.ok _ =>
    let r := generate_loop env iterations "" []
    (r.1, r.2.2)

/-- The accumulator value at the start of outer iteration `k` (0-based),
derived by iterating `runIteration`; frozen when an iteration faults. -/
def accAt (env : Env) : Nat → String
  | 0 => ""
  | k + 1 =>
    match runIteration env (accAt env k) with
    | Except.ok (_, shortname_hyp) => accAt env k ++ shortname_hyp
    | Except.error _ => accAt env k

/-- The short name produced by outer iteration `k` (empty on a fault). -/
def shortAt (env : Env) (k : Nat) : String :=
  match runIteration env (accAt env k) with
  | Except.ok (_, shortname_hyp) => shortname_hyp
  | Except.error _ => ""

/-- The row produced by outer iteration `k` (empty on a fault). -/
def rowAt (env : Env) (k : Nat) : HypRow :=
  match runIteration env (accAt env k) with
  | Except.ok (row, _) => row
  | Except.error _ => []

/-- Does `pat` occur at the head of `s`? (character-list prefix test). -/
def leadMatch : List Char → List Char → Bool
  | _, [] => true
  | [], _ :: _ => false
  | a :: as, b :: bs => a == b && leadMatch as bs

/-- Does `pat` occur contiguously anywhere in `s`? -/
def containsSeq : List Char → List Char → Bool
  | [], pat => pat.isEmpty
  | a :: rest, pat => leadMatch (a :: rest) pat || containsSeq rest pat

/-- Literal-substring test on strings. -/
def strContains (s pat : String) : Bool :=
  containsSeq s.data pat.data

/-- Specification-side description of the accumulator: the delimiter-free
concatenation, in generation order, of the short names of iterations
`0 .. k-1` (compared below with the source-derived `accAt`). -/
def concatShorts (env : Env) : Nat → String
  | 0 => ""
  | k + 1 => concatShorts env k ++ shortAt env k

/-- A human-role message. -/
def humanMsg (c : String) : Message :=
  { type := Role.human, content := c }

/-- An ai-role message without tool calls. -/
def aiMsg (c : String) : Message :=
  { type := Role.ai, content := c }

/-- A tool-role message. -/
def toolMsg (c : String) : Message :=
  { type := Role.tool, content := c }

/-- A fixed structured payload whose reflection short name is `sn`. -/
def demoArgsWith (sn : String) : AnswerQuestionArgs :=
  { answer := "Answer about " ++ sn
    reflection :=
      { missing := "missing bits"
        superfluous := "extra bits"
        notnovel := "known bits"
        shortname := sn
        noveltyscore := "7"
        references_field := "pubmed 1"
        flag := "makes sense" }
    search_queries := ["query one"] }

/-- A final graph message carrying one tool call with short name `sn`. -/
def demoMessage (sn : String) : Message :=
  { type := Role.ai, content := "final"
    tool_calls := [{ id := "call_1", args := demoArgsWith sn }] }

/-- A model stub whose every response fails validation and carries no tool
calls. -/
def alwaysInvalidModel : Nat → List Message → Message :=
  fun _ _ => { type := Role.ai, content := "unstructured text" }

/-- A validator that rejects every response. -/
def alwaysFailValidator : Message → Option ValidationError :=
  fun _ => some { err_repr := "ValidationError(model=AnswerQuestion)" }

/-- A model stub whose every response fails validation but carries a tool
call. -/
def invalidToolCallModel : Nat → List Message → Message :=
  fun _ _ => { type := Role.ai, content := "draft"
               tool_calls := [{ id := "call_0", args := demoArgsWith "SN" }] }

/-- A model stub that answers badly on attempt 0 and well from attempt 1
on. -/
def secondTryModel : Nat → List Message → Message :=
  fun attempt _ =>
    if attempt = 0 then
      { type := Role.ai, content := "bad draft"
        tool_calls := [{ id := "call_0", args := demoArgsWith "SN" }] }
    else
      { type := Role.ai, content := "good"
        tool_calls := [{ id := "call_1", args := demoArgsWith "SN" }] }

/-- A validator accepting exactly the messages with content `"good"`. -/
def contentValidator : Message → Option ValidationError :=
  fun m => if m.content = "good" then none
           else some { err_repr := "ValidationError(content)" }

/-- A model stub producing an invalid response with a tool call on attempt
0, then an invalid response without tool calls. -/
def vanishingToolCallModel : Nat → List Message → Message :=
  fun attempt _ =>
    if attempt = 0 then
      { type := Role.ai, content := "bad draft"
        tool_calls := [{ id := "call_0", args := demoArgsWith "SN" }] }
    else
      { type := Role.ai, content := "still bad" }

/-- A retrieval-chain stub that faults on the query `"boom"` and otherwise
answers deterministically. -/
def demoRC : String → String → Except Fault String :=
  fun _ question =>
    if question = "boom" then Except.error (Fault.retriever "down")
    else Except.ok ("ans:" ++ question)

/-- An environment whose graph produces short name `"X"` on the first seed
(the one with an empty accumulator) and `"Y"` on any other seed, with the
auxiliary model echoing the concatenated contents of the prompt it is
given. -/
def demoEnv : Env :=
  { first_respond := Except.ok (demoMessage "seed")
    graph_final := fun seed =>
      Except.ok (demoMessage (if seed = seedContent "" then "X" else "Y"))
    similarity_search := fun sn => Except.ok ("papers for " ++ sn)
    guardrails_invoke := fun _ => Except.ok "no restricted topics"
    llm_short_invoke := fun msgs => Except.ok (String.join (msgs.map Prod.snd)) }

/-- Like `demoEnv`, but the model endpoint fails on every outer iteration
after the first. -/
def demoEnvFault : Env :=
  { demoEnv with
    graph_final := fun seed =>
      if seed = seedContent "" then Except.ok (demoMessage "X")
      else Except.error (Fault.endpoint "model endpoint unavailable") }

/-- An environment for probing the literature-relation call: every cycle
produces the short name `"ZETAGENE"`, the retriever returns passages that
do not mention it, and the auxiliary model echoes the concatenated contents
of the prompt it receives. -/
def probeEnv : Env :=
  { first_respond := Except.ok (demoMessage "seed")
    graph_final := fun _ => Except.ok (demoMessage "ZETAGENE")
    similarity_search := fun _ => Except.ok "BRCA papers"
    guardrails_invoke := fun _ => Except.ok "safe"
    llm_short_invoke := fun msgs => Except.ok (String.join (msgs.map Prod.snd)) }

/-- If every attempt before `j` fails validation with a tool call present,
the retry loop reaches attempt `j` in the state `respStateAt … j`. -/
theorem respond_reach (run : Nat → List Message → Message)
    (val : Message → Option ValidationError) (sj : String)
    (state : List Message) :
    ∀ j, j ≤ 2 →
      (∀ i, i < j →
        (val (run i (respStateAt run val sj state i))).isSome = true ∧
          (run i (respStateAt run val sj state i)).tool_calls ≠ []) →
      respondGo run val sj 0 2 state =
        respondGo run val sj j (2 - j) (respStateAt run val sj state j) := by
  intro j
  induction j with
  | zero => intro _ _; rfl
  | succ j ih =>
    intro hj2 hfail
    have hstep := ih (by omega) (fun i hi => hfail i (by omega))
    rw [hstep]
    obtain ⟨hsome, htc⟩ := hfail j (by omega)
    obtain ⟨e, he⟩ := Option.isSome_iff_exists.mp hsome
    obtain ⟨tc, tl, htl⟩ := List.exists_cons_of_ne_nil htc
    have h2j : 2 - j = (2 - (j + 1)) + 1 := by omega
    rw [respondGo]
    simp only [he, htl, h2j]
    congr 1
    rw [respStateAt]
    simp only [he, htl]

/-- C1 (counterexample): a model stub whose responses fail validation on
every attempt but carry no tool invocations refutes the claim as stated —
`ResponderWithRetries.respond` does not perform 3 invocations and return
the 3rd response; it raises an uncaught `IndexError` (from
`response.tool_calls[0]`) during the first corrective-message build. -/
theorem c1_counterexample :
    (∀ a s, (alwaysFailValidator (alwaysInvalidModel a s)).isSome = true) ∧
      respond alwaysInvalidModel alwaysFailValidator "schema" [] =
        PyOutcome.indexError 1 :=
  ⟨fun _ _ => rfl, rfl⟩

/-- C1 (amended): if the model's response fails schema validation on every
attempt and every failing response carries at least one tool invocation,
`respond` invokes the model exactly 3 times, returns the 3rd (still
invalid) response unchanged, and does not raise. -/
theorem c1_bounded_retry (run : Nat → List Message → Message)
    (val : Message → Option ValidationError) (sj : String)
    (state : List Message)
    (hval : ∀ a s, (val (run a s)).isSome = true)
    (htc : ∀ a s, (run a s).tool_calls ≠ []) :
    respond run val sj state =
      PyOutcome.ret (run 2 (respStateAt run val sj state 2)) 3 ∧
    (val (run 2 (respStateAt run val sj state 2))).isSome = true := by
  refine ⟨?_, hval _ _⟩
  have hreach := respond_reach run val sj state 2 (by omega)
    (fun i _ => ⟨hval _ _, htc _ _⟩)
  rw [respond, hreach]
  obtain ⟨e, he⟩ :=
    Option.isSome_iff_exists.mp (hval 2 (respStateAt run val sj state 2))
  obtain ⟨tc, tl, htl⟩ :=
    List.exists_cons_of_ne_nil (htc 2 (respStateAt run val sj state 2))
  rw [respondGo]
  simp only [he, htl]

/-- Witness for `c1_bounded_retry` at a concrete always-invalid model stub
that keeps a tool call in its responses. -/
theorem c1_bounded_retry_witness :
    respond invalidToolCallModel alwaysFailValidator "schema" [] =
      PyOutcome.ret
        (invalidToolCallModel 2
          (respStateAt invalidToolCallModel alwaysFailValidator "schema" [] 2)) 3 ∧
    (alwaysFailValidator
      (invalidToolCallModel 2
        (respStateAt invalidToolCallModel alwaysFailValidator "schema" [] 2))).isSome
      = true :=
  c1_bounded_retry invalidToolCallModel alwaysFailValidator "schema" []
    (fun _ _ => rfl) (fun _ _ => by simp [invalidToolCallModel])

/-- C7: if every attempt before `k` fails validation with a tool call
present (so that the loop reaches attempt `k` at all) and the model's
response on attempt `k` validates, `respond` returns that response
verbatim after exactly `k` model invocations. -/
theorem c7_early_success (run : Nat → List Message → Message)
    (val : Message → Option ValidationError) (sj : String)
    (state : List Message) (k : Nat) (hk1 : 1 ≤ k) (hk3 : k ≤ 3)
    (hprev : ∀ j, j < k - 1 →
      (val (run j (respStateAt run val sj state j))).isSome = true ∧
        (run j (respStateAt run val sj state j)).tool_calls ≠ [])
    (hvalid : val (run (k - 1) (respStateAt run val sj state (k - 1))) = none) :
    respond run val sj state =
      PyOutcome.ret (run (k - 1) (respStateAt run val sj state (k - 1))) k := by
  have hreach := respond_reach run val sj state (k - 1) (by omega) hprev
  rw [respond, hreach, respondGo]
  simp only [hvalid]
  congr 1
  omega

/-- Witness for `c7_early_success`: a stub that is invalid on the 1st call
and valid on the 2nd; exactly 2 invocations occur and the 2nd response is
returned verbatim. -/
theorem c7_early_success_witness :
    respond secondTryModel contentValidator "schema" [] =
      PyOutcome.ret
        (secondTryModel 1 (respStateAt secondTryModel contentValidator "schema" [] 1))
        2 :=
  c7_early_success secondTryModel contentValidator "schema" [] 2
    (by omega) (by omega)
    (fun j hj => by
      have hj0 : j = 0 := by omega
      subst hj0
      exact ⟨rfl, by simp [secondTryModel, respStateAt]⟩)
    rfl

/-- C10: if the loop reaches an attempt `j` whose response fails validation
and carries no tool invocations, `respond` raises (an uncaught
`IndexError` while building the corrective message) after `j + 1` model
invocations, so the silent give-up policy only covers invalid responses
that still contain a tool invocation. -/
theorem c10_empty_tool_calls_raise (run : Nat → List Message → Message)
    (val : Message → Option ValidationError) (sj : String)
    (state : List Message) (j : Nat) (hj : j ≤ 2)
    (hprev : ∀ i, i < j →
      (val (run i (respStateAt run val sj state i))).isSome = true ∧
        (run i (respStateAt run val sj state i)).tool_calls ≠ [])
    (hfail : (val (run j (respStateAt run val sj state j))).isSome = true)
    (hempty : (run j (respStateAt run val sj state j)).tool_calls = []) :
    respond run val sj state = PyOutcome.indexError (j + 1) := by
  have hreach := respond_reach run val sj state j hj hprev
  obtain ⟨e, he⟩ := Option.isSome_iff_exists.mp hfail
  rw [respond, hreach, respondGo]
  simp only [he, hempty]

/-- Witness for `c10_empty_tool_calls_raise`: invalid-with-tool-call on
attempt 0, then invalid without tool calls on attempt 1 — `respond` raises
after 2 invocations. -/
theorem c10_empty_tool_calls_raise_witness :
    respond vanishingToolCallModel alwaysFailValidator "schema" [] =
      PyOutcome.indexError 2 :=
  c10_empty_tool_calls_raise vanishingToolCallModel alwaysFailValidator "schema" [] 1
    (by omega)
    (fun i hi => by
      have hi0 : i = 0 := by omega
      subst hi0
      exact ⟨rfl, by simp [vanishingToolCallModel, respStateAt]⟩)
    rfl
    (by simp [vanishingToolCallModel, respStateAt, alwaysFailValidator])

/-- Reading a valid reference is unaffected by heap extension. -/
theorem Heap.read_append_lt (h ext : Heap) (r : Nat) (hr : r < h.length) :
    Heap.read (h ++ ext) r = Heap.read h r := by
  simp [Heap.read, List.getD, List.getElem?_append, hr]

/-- The retry loop on the heap model only ever allocates: the final heap
extends the initial one, and the outcome agrees with the pure loop run on
the referenced list. -/
theorem respondHGo_frame (run : Nat → List Message → Message)
    (val : Message → Option ValidationError) (sj : String) :
    ∀ rem attempt (heap : Heap) (r : Nat), r < heap.length →
      (∃ ext, (respondHGo run val sj attempt rem heap r).2 = heap ++ ext) ∧
      (respondHGo run val sj attempt rem heap r).1 =
        respondGo run val sj attempt rem (Heap.read heap r) := by
  intro rem
  induction rem with
  | zero =>
    intro attempt heap r hr
    rw [respondHGo, respondGo]
    cases hval : val (run attempt (Heap.read heap r)) with
    | none => exact ⟨⟨[], by simp⟩, rfl⟩
    | some e =>
      cases htc : (run attempt (Heap.read heap r)).tool_calls with
      | nil => exact ⟨⟨[], by simp⟩, rfl⟩
      | cons tc tl => exact ⟨⟨_, rfl⟩, rfl⟩
  | succ rem ih =>
    intro attempt heap r hr
    rw [respondHGo, respondGo]
    cases hval : val (run attempt (Heap.read heap r)) with
    | none => exact ⟨⟨[], by simp⟩, rfl⟩
    | some e =>
      cases htc : (run attempt (Heap.read heap r)).tool_calls with
      | nil => exact ⟨⟨[], by simp⟩, rfl⟩
      | cons tc tl =>
        have hfreshr : heap.length <
            (heap ++ [Heap.read heap r ++
              [run attempt (Heap.read heap r),
                corrective_tool_message e sj tc.id]]).length := by
          simp
        obtain ⟨⟨ext, hext⟩, hout⟩ := ih (attempt + 1)
          (heap ++ [Heap.read heap r ++
            [run attempt (Heap.read heap r), corrective_tool_message e sj tc.id]])
          heap.length hfreshr
        refine ⟨⟨_, by rw [hext, List.append_assoc]⟩, ?_⟩
        rw [hout]
        congr 1
        simp [Heap.read, List.getD, List.getElem?_append]

/-- C9: `respond` does not mutate its input history.  On the heap model of
Python list objects, a call with a valid reference `r` to the caller's
history only allocates (the final heap extends the initial one), the list
the caller still references is unchanged afterwards, and the outcome is
exactly that of the pure history-in, message-out function. -/
theorem c9_respond_no_mutation (run : Nat → List Message → Message)
    (val : Message → Option ValidationError) (sj : String)
    (heap : Heap) (r : Nat) (hr : r < heap.length) :
    (∃ ext, (respondH run val sj heap r).2 = heap ++ ext) ∧
    Heap.read (respondH run val sj heap r).2 r = Heap.read heap r ∧
    (respondH run val sj heap r).1 = respond run val sj (Heap.read heap r) := by
  obtain ⟨⟨ext, hext⟩, hout⟩ := respondHGo_frame run val sj 2 0 heap r hr
  rw [respondH]
  refine ⟨⟨ext, hext⟩, ?_, hout⟩
  rw [hext, Heap.read_append_lt heap ext r hr]

/-- Witness for `c9_respond_no_mutation` on a concrete one-object heap and
the invalid-then-valid model stub. -/
theorem c9_respond_no_mutation_witness :
    (∃ ext,
      (respondH secondTryModel contentValidator "schema" [[humanMsg "hi"]] 0).2 =
        [[humanMsg "hi"]] ++ ext) ∧
    Heap.read
        (respondH secondTryModel contentValidator "schema" [[humanMsg "hi"]] 0).2 0 =
      Heap.read [[humanMsg "hi"]] 0 ∧
    (respondH secondTryModel contentValidator "schema" [[humanMsg "hi"]] 0).1 =
      respond secondTryModel contentValidator "schema"
        (Heap.read [[humanMsg "hi"]] 0) :=
  c9_respond_no_mutation secondTryModel contentValidator "schema"
    [[humanMsg "hi"]] 0 (by simp)

/-- The source's backward-scanning counter computes the length of the
leading run of `ai`/`tool` messages of its (reversed) input. -/
theorem get_num_iterations_rev_eq (l : List Message) :
    get_num_iterations_rev l =
      (l.takeWhile (fun m => m.type == Role.ai || m.type == Role.tool)).length := by
  induction l with
  | nil => rfl
  | cons m rest ih =>
    cases htype : m.type <;>
      simp +decide [get_num_iterations_rev, List.takeWhile_cons, htype, ih]

/-- `_get_num_iterations` equals the specification's trailing run length. -/
theorem get_num_iterations_eq_trailing (s : List Message) :
    get_num_iterations s = trailing_ai_tool_run s := by
  rw [get_num_iterations, trailing_ai_tool_run, get_num_iterations_rev_eq]

/-- C2: the Revise-stage transition returns Terminal exactly when the
trailing `ai`/`tool` run length strictly exceeds `agent_iterations`; a run
of exactly `A` continues to ExecuteTools, a run of `A + 1` terminates. -/
theorem c2_event_loop_termination (A : Nat) (s : List Message) :
    (event_loop A s = GraphNext.terminal ↔ A < trailing_ai_tool_run s) ∧
    (trailing_ai_tool_run s = A → event_loop A s = GraphNext.execute_tools) ∧
    (trailing_ai_tool_run s = A + 1 → event_loop A s = GraphNext.terminal) := by
  have hEq := get_num_iterations_eq_trailing s
  refine ⟨?_, fun h2 => ?_, fun h3 => ?_⟩
  · rw [event_loop, hEq]
    by_cases h : A < trailing_ai_tool_run s <;> simp [h]
  · rw [event_loop, hEq, h2]
    simp
  · rw [event_loop, hEq, h3, if_pos (by omega)]

/-- Witness for `c2_event_loop_termination`: a history ending in one `ai`
and one `tool` message (trailing run 2) terminates at threshold 1 and
continues at threshold 2. -/
theorem c2_event_loop_termination_witness :
    event_loop 1 [humanMsg "q", aiMsg "draft", toolMsg "results"] =
      GraphNext.terminal ∧
    event_loop 2 [humanMsg "q", aiMsg "draft", toolMsg "results"] =
      GraphNext.execute_tools :=
  ⟨(c2_event_loop_termination 1 [humanMsg "q", aiMsg "draft", toolMsg "results"]).2.2
      (by decide),
   (c2_event_loop_termination 2 [humanMsg "q", aiMsg "draft", toolMsg "results"]).2.1
      (by decide)⟩

/-- When every query succeeds, `run_queries` returns the per-query answers
in query order. -/
theorem run_queries_all_ok (rc : String → String → Except Fault String)
    (f : String → String) :
    ∀ qs : List String, (∀ q ∈ qs, rc "" q = Except.ok (f q)) →
      run_queries rc qs = Except.ok (qs.map f) := by
  intro qs
  induction qs with
  | nil => intro _; rfl
  | cons q rest ih =>
    intro h
    rw [run_queries, h q (by simp), ih (fun p hp => h p (by simp [hp]))]
    rfl

/-- A fault on any query propagates out of `run_queries` once every query
before it has succeeded. -/
theorem run_queries_propagates (rc : String → String → Except Fault String)
    (f : String → String) (q : String) (post : List String) (e : Fault) :
    ∀ pre : List String, (∀ p ∈ pre, rc "" p = Except.ok (f p)) →
      rc "" q = Except.error e →
      run_queries rc (pre ++ q :: post) = Except.error e := by
  intro pre
  induction pre with
  | nil =>
    intro _ herr
    rw [List.nil_append, run_queries, herr]
  | cons p rest ih =>
    intro h herr
    rw [List.cons_append, run_queries, h p (by simp),
      ih (fun x hx => h x (by simp [hx])) herr]

/-- C8: the tool-execution function maps the query list in order through
the retrieval chain — same length, i-th result answers the i-th query, no
deduplication — and a retriever fault on any query (all earlier ones
succeeding) propagates and aborts the run. -/
theorem c8_run_queries_order_and_faults
    (rc : String → String → Except Fault String) (f : String → String)
    (qs : List String) :
    ((∀ q ∈ qs, rc "" q = Except.ok (f q)) →
      run_queries rc qs = Except.ok (qs.map f)) ∧
    (∀ pre q post e, qs = pre ++ q :: post →
      (∀ p ∈ pre, rc "" p = Except.ok (f p)) →
      rc "" q = Except.error e →
      run_queries rc qs = Except.error e) := by
  refine ⟨run_queries_all_ok rc f qs, ?_⟩
  intro pre q post e hqs hpre herr
  rw [hqs]
  exact run_queries_propagates rc f q post e pre hpre herr

/-- Witness for `c8_run_queries_order_and_faults`: a duplicate-containing
query list is answered element-wise (duplicates executed again), and a
faulting middle query aborts with the retriever error. -/
theorem c8_run_queries_order_and_faults_witness :
    run_queries demoRC ["alpha", "beta", "alpha"] =
      Except.ok ["ans:alpha", "ans:beta", "ans:alpha"] ∧
    run_queries demoRC ["alpha", "boom", "gamma"] =
      Except.error (Fault.retriever "down") :=
  ⟨(c8_run_queries_order_and_faults demoRC (fun q => "ans:" ++ q)
      ["alpha", "beta", "alpha"]).1 (by intro q hq; fin_cases hq <;> rfl),
   (c8_run_queries_order_and_faults demoRC (fun q => "ans:" ++ q)
      ["alpha", "boom", "gamma"]).2 ["alpha"] "boom" ["gamma"]
      (Fault.retriever "down") rfl (by intro p hp; fin_cases hp; rfl) rfl⟩

/-- C5: a fault in any sub-call of the current outer iteration (graph run
with its tool execution, final-message extraction, similarity search,
policy check, or literature-relation call) halts the outer loop at once:
the table keeps exactly the rows of the completed earlier iterations, with
no partial row appended for the faulting one, and the remaining iteration
budget is never used. -/
theorem c5_fault_aborts_iteration (env : Env) (n : Nat) (acc : String)
    (table : List HypRow) (f : Fault)
    (h : runIteration env acc = Except.error f) :
    generate_loop env (n + 1) acc table = (table, acc, some f) := by
  rw [generate_loop, h]

/-- Witness for `c5_fault_aborts_iteration`: iteration 1 of `demoEnvFault`
completed with short name `"X"` and one row; the endpoint fault in
iteration 2 returns that single-row table unchanged with 2 iterations of
budget left. -/
theorem c5_fault_aborts_iteration_witness :
    generate_loop demoEnvFault 2 "X"
        [mkRow (demoArgsWith "X") "no restricted topics"
          "You are world class technical documentation writer.papers for X"] =
      ([mkRow (demoArgsWith "X") "no restricted topics"
          "You are world class technical documentation writer.papers for X"],
        "X", some (Fault.endpoint "model endpoint unavailable")) :=
  c5_fault_aborts_iteration demoEnvFault 1 "X"
    [mkRow (demoArgsWith "X") "no restricted topics"
      "You are world class technical documentation writer.papers for X"]
    (Fault.endpoint "model endpoint unavailable")
    (by simp +decide [runIteration, demoEnvFault, demoEnv])

/-- An `Except` that `isOk` is an `ok`. -/
theorem exceptOk_exists {ε α : Type} {x : Except ε α} (h : x.isOk = true) :
    ∃ v, x = Except.ok v := by
  cases x with
  | ok v => exact ⟨v, rfl⟩
  | error e => exact Bool.noConfusion h

/-- A successful outer iteration produces exactly the 10-column row built
by `mkRow` from the final tool call's args and the two computed
annotations, and reports that tool call's short name. -/
theorem runIteration_ok_shape (env : Env) (acc : String) (row : HypRow)
    (sn : String) (h : runIteration env acc = Except.ok (row, sn)) :
    ∃ args safety relation, row = mkRow args safety relation ∧
      sn = args.reflection.shortname := by
  rw [runIteration] at h
  cases hg : env.graph_final (seedContent acc) with
  | error f => simp only [hg] at h; exact Except.noConfusion h
  | ok final =>
    simp only [hg] at h
    cases htc : final.tool_calls with
    | nil => simp only [htc] at h; exact Except.noConfusion h
    | cons tc tl =>
      simp only [htc] at h
      cases hs : env.similarity_search tc.args.reflection.shortname with
      | error f => simp only [hs] at h; exact Except.noConfusion h
      | ok lp =>
        simp only [hs] at h
        cases hgd : env.guardrails_invoke
            ("Does the following contain any restricted topics?: " ++ tc.args.answer) with
        | error f => simp only [hgd] at h; exact Except.noConfusion h
        | ok safety =>
          simp only [hgd] at h
          cases hl : env.llm_short_invoke (prompt_messages lp) with
          | error f => simp only [hl] at h; exact Except.noConfusion h
          | ok relation =>
            simp only [hl, Except.ok.injEq, Prod.mk.injEq] at h
            obtain ⟨h1, h2⟩ := h
            exact ⟨tc.args, safety, relation, h1.symm, h2.symm⟩

/-- When every iteration in the remaining budget succeeds, the outer loop
appends exactly one row per iteration, in generation order, and ends
without fault. -/
theorem generate_loop_total (env : Env) :
    ∀ n j (table : List HypRow),
      (∀ k, k < j + n → (runIteration env (accAt env k)).isOk = true) →
      generate_loop env n (accAt env j) table =
        (table ++ (List.range' j n).map (rowAt env), accAt env (j + n), none) := by
  intro n
  induction n with
  | zero =>
    intro j table _
    simp [generate_loop, List.range']
  | succ n ih =>
    intro j table h
    obtain ⟨⟨row, sn⟩, hok⟩ := exceptOk_exists (h j (by omega))
    have hacc : accAt env j ++ sn = accAt env (j + 1) := by
      conv_rhs => rw [accAt]
      rw [hok]
    have hrow : row = rowAt env j := by
      rw [rowAt, hok]
    simp only [generate_loop, hok]
    rw [hacc, hrow,
      ih (j + 1) (table ++ [rowAt env j]) (fun k hk => h k (by omega))]
    have hidx : j + 1 + n = j + (n + 1) := by omega
    simp [List.range', hidx, List.append_assoc]

/-- C6: with `iterations = n` and every sub-call succeeding, the run
produces exactly `n` rows in generation order (row `k` being the one built
by iteration `k`), and every row carries exactly the 10 declared columns
in the declared order. -/
theorem c6_rows_complete (env : Env) (n : Nat)
    (h0 : env.first_respond.isOk = true)
    (hk : ∀ k, k < n → (runIteration env (accAt env k)).isOk = true) :
    generate_hypotheses env n = ((List.range n).map (rowAt env), none) ∧
    ∀ k, k < n → (rowAt env k).map Prod.fst = colNames := by
  constructor
  · obtain ⟨m, hm⟩ := exceptOk_exists h0
    have h := generate_loop_total env n 0 [] (fun k hk' => hk k (by omega))
    rw [generate_hypotheses, hm]
    show ((generate_loop env n "" []).1, (generate_loop env n "" []).2.2) = _
    have h0eq : ("" : String) = accAt env 0 := rfl
    rw [h0eq, h]
    simp [List.range_eq_range']
  · intro k hk'
    obtain ⟨⟨row, sn⟩, hok⟩ := exceptOk_exists (hk k hk')
    obtain ⟨args, safety, relation, hrow, -⟩ :=
      runIteration_ok_shape env (accAt env k) row sn hok
    simp only [rowAt, hok]
    rw [hrow]
    rfl

/-- Witness for `c6_rows_complete`: `demoEnv` with 2 iterations yields
exactly the 2 generated rows, each with the 10 declared columns. -/
theorem c6_rows_complete_witness :
    generate_hypotheses demoEnv 2 = ((List.range 2).map (rowAt demoEnv), none) ∧
    ∀ k, k < 2 → (rowAt demoEnv k).map Prod.fst = colNames :=
  c6_rows_complete demoEnv 2 rfl (by decide)

/-- A pattern matches at the head of any extension of itself. -/
theorem leadMatch_append (s t : List Char) : leadMatch (s ++ t) s = true := by
  induction s with
  | nil => simp [leadMatch]
  | cons a as ih => simp [leadMatch, ih]

/-- Containment is preserved by prepending. -/
theorem containsSeq_append_left (pre s pat : List Char)
    (h : containsSeq s pat = true) : containsSeq (pre ++ s) pat = true := by
  induction pre with
  | nil => exact h
  | cons a as ih =>
    rw [List.cons_append, containsSeq]
    simp [ih]

/-- A pattern is contained in itself followed by anything. -/
theorem containsSeq_self_append (pat t : List Char) :
    containsSeq (pat ++ t) pat = true := by
  cases pat with
  | nil => cases t <;> simp [containsSeq, leadMatch]
  | cons a as =>
    rw [List.cons_append, containsSeq]
    have := leadMatch_append (a :: as) t
    rw [List.cons_append] at this
    simp [this]

/-- Any middle factor of a string concatenation is a literal substring. -/
theorem strContains_middle (p A s B : String) :
    strContains (p ++ ((A ++ s) ++ B)) s = true := by
  rw [strContains]
  rw [String.data_append, String.data_append, String.data_append]
  simpa [List.append_assoc] using
    containsSeq_append_left (p.data ++ A.data) (s.data ++ B.data) s.data
      (containsSeq_self_append s.data B.data)

/-- A suffix of a string concatenation is a literal substring. -/
theorem strContains_append_right (p s : String) :
    strContains (p ++ s) s = true := by
  rw [strContains, String.data_append]
  rcases s with ⟨sd⟩
  show containsSeq (p.data ++ sd) sd = true
  have : containsSeq (sd ++ []) sd = true := containsSeq_self_append sd []
  rw [List.append_nil] at this
  exact containsSeq_append_left p.data sd sd this

/-- While iterations succeed, the accumulator grows exactly by each
iteration's short name. -/
theorem accAt_closed (env : Env) (k : Nat)
    (hk : ∀ i, i < k → (runIteration env (accAt env i)).isOk = true) :
    accAt env k = concatShorts env k := by
  induction k with
  | zero => rfl
  | succ k ih =>
    obtain ⟨⟨row, sn⟩, hok⟩ := exceptOk_exists (hk k (by omega))
    have hsn : shortAt env k = sn := by
      simp only [shortAt, hok]
    rw [accAt]
    simp only [hok]
    rw [concatShorts, ih (fun i hi => hk i (by omega)), hsn]

/-- Any earlier short name is a factor of the accumulator's closed form. -/
theorem concatShorts_split (env : Env) (i : Nat) :
    ∀ k, i < k → ∃ A B, concatShorts env k = (A ++ shortAt env i) ++ B := by
  intro k
  induction k with
  | zero => intro h; exact absurd h (by omega)
  | succ k ih =>
    intro hik
    by_cases hk : i < k
    · obtain ⟨A, B, hAB⟩ := ih hk
      refine ⟨A, B ++ shortAt env k, ?_⟩
      rw [concatShorts, hAB, String.append_assoc]
    · have hi : i = k := by omega
      subst hi
      exact ⟨concatShorts env i, "", by rw [concatShorts, String.append_empty]⟩

/-- The accumulator only ever grows inside the outer loop: the final value
extends whatever it started from. -/
theorem generate_loop_acc_extends (env : Env) :
    ∀ n (acc : String) (table : List HypRow),
      ∃ t, (generate_loop env n acc table).2.1 = acc ++ t := by
  intro n
  induction n with
  | zero =>
    intro acc table
    exact ⟨"", (String.append_empty acc).symm⟩
  | succ n ih =>
    intro acc table
    cases hr : runIteration env acc with
    | error f =>
      simp only [generate_loop, hr]
      exact ⟨"", (String.append_empty acc).symm⟩
    | ok pr =>
      obtain ⟨row, sn⟩ := pr
      simp only [generate_loop, hr]
      obtain ⟨t, ht⟩ := ih (acc ++ sn) (table ++ [row])
      exact ⟨sn ++ t, by rw [ht, String.append_assoc]⟩

/-- C4: the known-concepts accumulator starts empty; after `k` successful
iterations it is the delimiter-free concatenation of their short names in
generation order; the seed message of the next iteration contains the
accumulated string — and hence each prior short name — as a literal
substring; and the loop never resets or shortens it. -/
theorem c4_accumulator (env : Env) (k : Nat)
    (hk : ∀ i, i < k → (runIteration env (accAt env i)).isOk = true) :
    accAt env 0 = "" ∧
    accAt env k = concatShorts env k ∧
    strContains (seedContent (accAt env k)) (accAt env k) = true ∧
    (∀ i, i < k → strContains (seedContent (accAt env k)) (shortAt env i) = true) ∧
    (∀ n acc table, ∃ t, (generate_loop env n acc table).2.1 = acc ++ t) := by
  refine ⟨rfl, accAt_closed env k hk, ?_, ?_, generate_loop_acc_extends env⟩
  · rw [seedContent]
    exact strContains_append_right _ _
  · intro i hik
    obtain ⟨A, B, hAB⟩ := concatShorts_split env i k hik
    rw [seedContent, accAt_closed env k hk, hAB]
    exact strContains_middle _ _ _ _

/-- Witness for `c4_accumulator`: after `demoEnv` produces `"X"` then
`"Y"`, the accumulator is their concatenation and iteration 3's seed
contains both. -/
theorem c4_accumulator_witness :
    accAt demoEnv 0 = "" ∧
    accAt demoEnv 2 = concatShorts demoEnv 2 ∧
    strContains (seedContent (accAt demoEnv 2)) (accAt demoEnv 2) = true ∧
    (∀ i, i < 2 →
      strContains (seedContent (accAt demoEnv 2)) (shortAt demoEnv i) = true) ∧
    (∀ n acc table, ∃ t, (generate_loop demoEnv n acc table).2.1 = acc ++ t) :=
  c4_accumulator demoEnv 2 (by decide)

/-- C3 (code bug, `src/app.py` line 267): the literature-relation model
call is made through the generic documentation-writer prompt (`prompt`),
not the hypothesis-specific `prompt_short` built two lines earlier, so its
input consists of the retrieved passages alone.  At a concrete iteration
with short name `"ZETAGENE"` and passages `"BRCA papers"` (the probe model
echoes the prompt contents it receives): the stored annotation is the
echoed generic-prompt text, which nowhere contains the hypothesis, while
the dead `prompt_short` would have contained it. -/
theorem c3_literature_prompt_drops_hypothesis :
    runIteration probeEnv "" =
      Except.ok
        (mkRow (demoArgsWith "ZETAGENE") "safe"
          "You are world class technical documentation writer.BRCA papers",
        "ZETAGENE") ∧
    strContains
      "You are world class technical documentation writer.BRCA papers"
      "ZETAGENE" = false ∧
    strContains
      (String.join ((prompt_short_messages "ZETAGENE" "BRCA papers").map Prod.snd))
      "ZETAGENE" = true :=
  ⟨rfl, by decide, by decide⟩
